import Mathlib

/-!
Shallow embedding of the Hiero → OTIO sequence exporter
(`opentimelineio_contrib/application_plugins/hiero/Python/Startup/otioexporter/OTIOExportTask.py`),
covering the timeline conversion core: rate resolution (`get_rate`), range
building (`get_clip_ranges`), track assembly (`add_tracks` / `add_clip` /
`add_gap`) and transition translation (`add_transition`).

Modelling conventions:
- Host frame positions and durations are integers (`Int`), as in Hiero's API.
- Python floats are modelled as exact rationals (`ℚ`).  `float.is_integer()`
  becomes `Rat.den = 1`; `round(x, 2)` becomes rounding `x * 100` to the
  nearest integer (Python's round-half-to-even tie behaviour on binary floats
  is modelled as ordinary rounding on exact rationals; no claim below depends
  on a tie at the second decimal).
- Host objects are records carrying exactly the accessors the exporter reads.
  A transition's linked neighbour items (`inTrackItem()` / `outTrackItem()`)
  are represented by the two fields the code reads from them
  (`timelineOut` of the inbound item, `timelineIn` of the outbound item).
- Python's `UnboundLocalError` (reading `prev_out` before assignment in
  `add_tracks`) is modelled by threading `Option Int` for the cursor and
  returning `Except.error ConvError.unboundPrevOut` when it is read unset.
-/

set_option autoImplicit false

namespace OTIOExport

/-- Host media source (`trackitem.source().mediaSource()`): the accessors the
exporter reads.  The file path is kept as the directory/basename pair produced
by `os.path.split`; `os.path.join` recombines them. -/
structure HieroMediaSource where
  hasVideo : Bool
  isOffline : Bool
  startTime : Int
  duration : Int
  fileDir : String
  fileBase : String
deriving DecidableEq

/-- Host clip (`trackitem.source()`): its media source and its frame rate as
the exact rational returned by `framerate().toRational()`. -/
structure HieroClip where
  mediaSource : HieroMediaSource
  rateNum : Int
  rateDen : Int
deriving DecidableEq

/-- Hiero transition alignment names.  The code compares
`transition.alignment().name` against the strings `kFadeIn` / `kFadeOut` /
`kDissolve`; `kUnknown` stands for every other name (the `else` branch). -/
inductive TransitionAlignment
  | kFadeIn
  | kFadeOut
  | kDissolve
  | kUnknown
deriving DecidableEq

/-- Host transition: alignment, its own timeline in/out, and the two fields
the exporter reads from its linked neighbour items
(`inTrackItem().timelineOut()` and `outTrackItem().timelineIn()`). -/
structure HieroTransition where
  alignment : TransitionAlignment
  timelineIn : Int
  timelineOut : Int
  inItemTimelineOut : Int
  outItemTimelineIn : Int
deriving DecidableEq

/-- A host tag: name, visibility flag, and its metadata dictionary
(`tag.metadata().dict()`), kept as an association list. -/
structure HieroTag where
  name : String
  visible : Bool
  metadata : List (String × String)
deriving DecidableEq

/-- The result of `trackitem.source()`: either a genuine `hiero.core.Clip`
(the `isinstance` check in `add_tracks` passes) or anything else. -/
inductive HieroItemSource
  | clip (c : HieroClip)
  | nonClip
deriving DecidableEq

/-- Host track item with the accessors the exporter reads. -/
structure HieroTrackItem where
  name : String
  timelineIn : Int
  timelineOut : Int
  sourceIn : Int
  sourceOut : Int
  duration : Int
  playbackSpeed : ℚ
  source : HieroItemSource
  inTransition : Option HieroTransition
  outTransition : Option HieroTransition
  tags : List HieroTag
deriving DecidableEq

/-- Host sequence: name and frame rate (`framerate().toRational()`). -/
structure HieroSequence where
  name : String
  rateNum : Int
  rateDen : Int
deriving DecidableEq

/-- Host track: name, audio/video type, ordered items. -/
structure HieroTrack where
  name : String
  isAudio : Bool
  items : List HieroTrackItem
deriving DecidableEq

/-- The export preset configuration the conversion reads
(`self._preset.properties()["includeTags"]`). -/
structure ExportPreset where
  includeTags : Bool
deriving DecidableEq

/-- `otio.opentime.RationalTime`: a value at a rate. -/
structure RationalTime where
  value : ℚ
  rate : ℚ
deriving DecidableEq

/-- `otio.opentime.TimeRange`: start time and duration.  When the code builds
a range with only a duration, the start time defaults to 0 at rate 1. -/
structure TimeRange where
  start_time : RationalTime
  duration : RationalTime
deriving DecidableEq

/-- Time effects the exporter emits (`otio.schema.FreezeFrame`,
`otio.schema.LinearTimeWarp` with its time scalar). -/
inductive TimeEffect
  | freezeFrame
  | linearTimeWarp (time_scalar : ℚ)
deriving DecidableEq

/-- Media reference: `otio.schema.MissingReference`, or
`otio.schema.ExternalReference` with its available range, target URL and
name.  A missing reference carries no available range. -/
inductive MediaReference
  | missing
  | externalRef (available_range : Option TimeRange) (target_url : String) (name : String)
deriving DecidableEq

/-- The `otio.schema.Clip` fields the exporter populates.  `hieroTags` is
`metadata['Hiero']['tags']` (`none` when the namespace is never created). -/
structure OtioClip where
  name : String
  source_range : TimeRange
  media_reference : MediaReference
  effects : List TimeEffect
  hieroTags : Option (List (String × List (String × String)))
deriving DecidableEq

/-- The `otio.schema.Transition` fields the exporter populates.  The code also
sets `transition_type` to the constant `SMPTE_Dissolve` and `metadata` to an
empty dictionary; those constants are omitted. -/
structure OtioTransition where
  name : TransitionAlignment
  in_offset : RationalTime
  out_offset : RationalTime
deriving DecidableEq

/-- A child of an OTIO track: `Clip`, `Gap` (its source range) or
`Transition`. -/
inductive TrackChild
  | clip (c : OtioClip)
  | gap (source_range : TimeRange)
  | transition (t : OtioTransition)
deriving DecidableEq

/-- OTIO track kind. -/
inductive TrackKind
  | video
  | audio
deriving DecidableEq

/-- `otio.schema.Track`: name, kind, ordered children. -/
structure OtioTrack where
  name : String
  kind : TrackKind
  children : List TrackChild
deriving DecidableEq

/-- `round(rate, 2)`: round to two decimal places. -/
def roundTo2 (q : ℚ) : ℚ :=
  ((round (q * 100) : ℤ) : ℚ) / 100

/-- `OTIOExportTask.get_rate`: divide the rational frame rate out; return it
exactly when it is a mathematical integer (`rate.is_integer()`), otherwise
round to two decimal places. -/
def get_rate (num den : Int) : ℚ :=
  let rate : ℚ := (num : ℚ) / (den : ℚ)
  if rate.den = 1 then rate else roundTo2 rate

/-- `os.path.join(path, name)` for the pair produced by `os.path.split`. -/
def joinPath (dir base : String) : String :=
  if dir = "" then base else dir ++ "/" ++ base

/-- `OTIOExportTask.get_clip_ranges`.  `c` is the item's source clip
(`trackitem.source()`); the caller only invokes this on items whose source is
a genuine clip.  Returns `(source_range, available_range)`. -/
def get_clip_ranges (seq : HieroSequence) (item : HieroTrackItem) (c : HieroClip) :
    TimeRange × Option TimeRange :=
  let source_rate : ℚ :=
    if c.mediaSource.hasVideo = false then get_rate seq.rateNum seq.rateDen
    else get_rate c.rateNum c.rateDen
  let start : Int := if item.playbackSpeed < 0 then item.sourceOut else item.sourceIn
  let source_range : TimeRange :=
    ⟨⟨(start : ℚ), source_rate⟩, ⟨(item.duration : ℚ), source_rate⟩⟩
  let available_range : Option TimeRange :=
    if c.mediaSource.isOffline = false then
      some ⟨⟨(c.mediaSource.startTime : ℚ), source_rate⟩,
            ⟨(c.mediaSource.duration : ℚ), source_rate⟩⟩
    else none
  (source_range, available_range)

/-- `OTIOExportTask.add_gap`: append a `Gap` whose length is
`timelineIn - prev_out`, minus one more frame when `prev_out != 0`, at the
sequence's resolved rate.  The gap's range is built from its duration only, so
its start time is the default 0 at rate 1. -/
def add_gap (seq : HieroSequence) (item : HieroTrackItem) (otio_track : List TrackChild)
    (prev_out : Int) : List TrackChild :=
  let gap_length : Int := item.timelineIn - prev_out
  let gap_length : Int := if prev_out ≠ 0 then gap_length - 1 else gap_length
  let rate : ℚ := get_rate seq.rateNum seq.rateDen
  otio_track ++ [TrackChild.gap ⟨⟨0, 1⟩, ⟨(gap_length : ℚ), rate⟩⟩]

/-- The clip-construction part of `OTIOExportTask.add_clip`: source range,
media reference (missing when the media is offline, external with the
available range and file path otherwise), time effects from the playback
speed, and tag metadata. -/
def build_clip (preset : ExportPreset) (seq : HieroSequence) (item : HieroTrackItem)
    (c : HieroClip) : OtioClip :=
  let ranges := get_clip_ranges seq item c
  let media_reference : MediaReference :=
    if c.mediaSource.isOffline = false then
      MediaReference.externalRef ranges.2
        (joinPath c.mediaSource.fileDir c.mediaSource.fileBase) c.mediaSource.fileBase
    else MediaReference.missing
  let effects : List TimeEffect :=
    if item.playbackSpeed ≠ 1 then
      [if item.playbackSpeed = 0 then TimeEffect.freezeFrame
       else TimeEffect.linearTimeWarp item.playbackSpeed]
    else []
  let tags : List HieroTag :=
    if preset.includeTags then item.tags.filter (fun t => t.visible) else []
  let hieroTags : Option (List (String × List (String × String))) :=
    if tags ≠ [] then some (tags.map (fun t => (t.name, t.metadata))) else none
  { name := item.name
    source_range := ranges.1
    media_reference := media_reference
    effects := effects
    hieroTags := hieroTags }

/-- The candidate list built at the top of `OTIOExportTask.add_transition`:
the in-transition only when its alignment is `kFadeIn`, then the
out-transition whenever present. -/
def selected_transitions (item : HieroTrackItem) : List HieroTransition :=
  (match item.inTransition with
   | some t => if t.alignment = TransitionAlignment.kFadeIn then [t] else []
   | none => []) ++
  (match item.outTransition with
   | some t => [t]
   | none => [])

/-- The per-alignment offset computation in `OTIOExportTask.add_transition`,
in frames; `none` for an unknown alignment (the `else: return` branch). -/
def transition_offsets (item : HieroTrackItem) (t : HieroTransition) :
    Option (Int × Int) :=
  match t.alignment with
  | TransitionAlignment.kFadeIn =>
      some (0, 1 + (t.timelineOut - t.timelineIn))
  | TransitionAlignment.kFadeOut =>
      some (1 + (item.timelineOut - t.timelineIn), 0)
  | TransitionAlignment.kDissolve =>
      some (t.inItemTimelineOut - t.timelineIn, t.timelineOut - t.outItemTimelineIn)
  | TransitionAlignment.kUnknown => none

/-- Build the `otio.schema.Transition` for one candidate: offsets at the
clip's own frame rate (`trackitem.source().framerate().toFloat()`, its exact
rational value). -/
def make_transition (item : HieroTrackItem) (c : HieroClip) (t : HieroTransition) :
    Option OtioTransition :=
  match transition_offsets item t with
  | none => none
  | some p =>
    let rate : ℚ := (c.rateNum : ℚ) / (c.rateDen : ℚ)
    some { name := t.alignment
           in_offset := ⟨(p.1 : ℚ), rate⟩
           out_offset := ⟨(p.2 : ℚ), rate⟩ }

/-- Python `list.insert(-2, tr)`: insert before index `len - 2`, clamped to
the front when the list has fewer than two elements (`Nat` subtraction
performs exactly that clamping). -/
def insert_two_before_end (otio_track : List TrackChild) (tr : OtioTransition) :
    List TrackChild :=
  otio_track.take (otio_track.length - 2) ++ [TrackChild.transition tr] ++
    otio_track.drop (otio_track.length - 2)

/-- The candidate loop of `OTIOExportTask.add_transition`: per candidate,
compute the offsets; an unknown alignment returns the track unchanged and
abandons the remaining candidates (`return`); a `kFadeIn` transition is
inserted two positions before the current end, every other one is appended. -/
def process_transitions (item : HieroTrackItem) (c : HieroClip) :
    List HieroTransition → List TrackChild → List TrackChild
  | [], otio_track => otio_track
  | t :: rest, otio_track =>
    match make_transition item c t with
    | none => otio_track
    | some tr =>
      let otio_track :=
        if t.alignment = TransitionAlignment.kFadeIn then insert_two_before_end otio_track tr
        else otio_track ++ [TrackChild.transition tr]
      process_transitions item c rest otio_track

/-- `OTIOExportTask.add_transition`: run the candidate loop over the selected
transitions. -/
def add_transition (item : HieroTrackItem) (c : HieroClip)
    (otio_track : List TrackChild) : List TrackChild :=
  process_transitions item c (selected_transitions item) otio_track

/-- `OTIOExportTask.add_clip`: append a gap when `prev_out + 1` is not the
item's timeline-in, append the built clip, then translate transitions when
the item has an in- or out-transition. -/
def add_clip (preset : ExportPreset) (seq : HieroSequence) (item : HieroTrackItem)
    (c : HieroClip) (otio_track : List TrackChild) (prev_out : Int) : List TrackChild :=
  let otio_track :=
    if prev_out + 1 ≠ item.timelineIn then add_gap seq item otio_track prev_out
    else otio_track
  let otio_track := otio_track ++ [TrackChild.clip (build_clip preset seq item c)]
  if item.inTransition.isSome || item.outTransition.isSome then
    add_transition item c otio_track
  else otio_track

/-- Failure mode of the per-track item loop: Python's `UnboundLocalError`
raised when `add_clip` is reached with `prev_out` never assigned. -/
inductive ConvError
  | unboundPrevOut
deriving DecidableEq

/-- The item loop of `OTIOExportTask.add_tracks` over one host track:
`index` is the `enumerate` counter over all items, `prev_out` the running
cursor, assigned only when the item at index 0 has a genuine clip source. -/
def add_track_items (preset : ExportPreset) (seq : HieroSequence) :
    List HieroTrackItem → Nat → Option Int → List TrackChild →
    Except ConvError (List TrackChild)
  | [], _, _, otio_track => Except.ok otio_track
  | item :: rest, index, prev_out, otio_track =>
    match item.source with
    | HieroItemSource.clip c =>
      let prev_out : Option Int :=
        if index = 0 then some (if item.timelineIn > 0 then 0 else -1) else prev_out
      match prev_out with
      | none => Except.error ConvError.unboundPrevOut
      | some p =>
        add_track_items preset seq rest (index + 1) (some item.timelineOut)
          (add_clip preset seq item c otio_track p)
    | HieroItemSource.nonClip =>
      add_track_items preset seq rest (index + 1) prev_out otio_track

/-- One iteration of the track loop of `OTIOExportTask.add_tracks`: build the
OTIO track with kind from the host track's type and run the item loop. -/
def add_track (preset : ExportPreset) (seq : HieroSequence) (track : HieroTrack) :
    Except ConvError OtioTrack :=
  let kind := if track.isAudio then TrackKind.audio else TrackKind.video
  Except.map
    (fun children => { name := track.name, kind := kind, children := children })
    (add_track_items preset seq track.items 0 none [])

/-- Gap durations (values of the duration rational times) of a child list, in
order. -/
def gapDurations : List TrackChild → List ℚ
  | [] => []
  | TrackChild.gap r :: rest => r.duration.value :: gapDurations rest
  | TrackChild.clip _ :: rest => gapDurations rest
  | TrackChild.transition _ :: rest => gapDurations rest

/-- The Clip/Gap subsequence of a child list (transitions removed), used to
state that transition handling leaves the clip/gap structure unchanged. -/
def clipGapChildren : List TrackChild → List TrackChild
  | [] => []
  | TrackChild.transition _ :: rest => clipGapChildren rest
  | child :: rest => child :: clipGapChildren rest

/-- Spec §4.1, stated from the spec's words: divide numerator by denominator;
if the result is a mathematical integer return it as an integer value,
otherwise round it to two decimal places. -/
def specResolvedRate (num den : Int) : ℚ :=
  let q : ℚ := (num : ℚ) / (den : ℚ)
  if q.den = 1 then q else roundTo2 q

/-- Spec §4.2: the resolved rate of an item, taken from the clip when its
media has video and from the sequence otherwise. -/
def specSourceRate (seq : HieroSequence) (c : HieroClip) : ℚ :=
  specResolvedRate
    (if c.mediaSource.hasVideo then c.rateNum else seq.rateNum)
    (if c.mediaSource.hasVideo then c.rateDen else seq.rateDen)

/-- Spec §4.4, fade-in offsets in frames:
in-offset 0, out-offset 1 + (transition.timeline_out − transition.timeline_in). -/
def specFadeInOffsets (t : HieroTransition) : Int × Int :=
  (0, 1 + (t.timelineOut - t.timelineIn))

/-- Spec §4.4, fade-out offsets in frames:
in-offset 1 + (item.timeline_out − transition.timeline_in), out-offset 0. -/
def specFadeOutOffsets (item : HieroTrackItem) (t : HieroTransition) : Int × Int :=
  (1 + (item.timelineOut - t.timelineIn), 0)

/-- Spec §4.4, dissolve offsets in frames:
in-offset inbound-neighbour.timeline_out − transition.timeline_in,
out-offset transition.timeline_out − outbound-neighbour.timeline_in. -/
def specDissolveOffsets (t : HieroTransition) : Int × Int :=
  (t.inItemTimelineOut - t.timelineIn, t.timelineOut - t.outItemTimelineIn)

/-- Host transition geometry well-formedness: a transition overlaps the cut
it decorates (its span is non-empty; a fade-out starts no later than its
item's end; a dissolve starts no later than the inbound neighbour's end and
ends no earlier than the outbound neighbour's start). -/
def transitionGeometryWF (item : HieroTrackItem) (t : HieroTransition) : Prop :=
  match t.alignment with
  | TransitionAlignment.kFadeIn => t.timelineIn ≤ t.timelineOut
  | TransitionAlignment.kFadeOut => t.timelineIn ≤ item.timelineOut
  | TransitionAlignment.kDissolve =>
      t.timelineIn ≤ t.inItemTimelineOut ∧ t.outItemTimelineIn ≤ t.timelineOut
  | TransitionAlignment.kUnknown => True

/-- Concrete online video media source used by witnesses. -/
def msOnline : HieroMediaSource :=
  ⟨true, false, 0, 100, "/media", "a.mov"⟩

/-- Concrete offline media source used by witnesses. -/
def msOffline : HieroMediaSource :=
  ⟨true, true, 0, 100, "/media", "b.mov"⟩

/-- Concrete 24 fps online clip. -/
def cC : HieroClip := ⟨msOnline, 24, 1⟩

/-- Concrete 24 fps offline clip. -/
def cOffline : HieroClip := ⟨msOffline, 24, 1⟩

/-- Concrete 24 fps sequence. -/
def seqC : HieroSequence := ⟨"seq", 24, 1⟩

/-- Concrete preset with tag inclusion disabled. -/
def presetC : ExportPreset := ⟨false⟩

/-- Item fixture: timeline in/out with defaults for the remaining fields. -/
def mkItem (tin tout : Int) : HieroTrackItem :=
  { name := "item"
    timelineIn := tin
    timelineOut := tout
    sourceIn := 0
    sourceOut := tout - tin
    duration := tout - tin + 1
    playbackSpeed := 1
    source := HieroItemSource.clip cC
    inTransition := none
    outTransition := none
    tags := [] }

/-- Item fixture with a given playback speed. -/
def itemSpeed (v : ℚ) : HieroTrackItem :=
  { mkItem 0 5 with playbackSpeed := v }

/-- First item of the C1 counterexample track: frames 0–5. -/
def itemA1 : HieroTrackItem := mkItem 0 5

/-- Second item of the C1 counterexample track: frames 10–20. -/
def itemB1 : HieroTrackItem := mkItem 10 20

/-- An item whose underlying source is not a genuine clip. -/
def nonClipItem : HieroTrackItem :=
  { mkItem 0 5 with source := HieroItemSource.nonClip }

/-- Concrete fade-in transition spanning frames 10–15. -/
def tFadeInW : HieroTransition :=
  ⟨TransitionAlignment.kFadeIn, 10, 15, 0, 0⟩

/-- Concrete fade-out transition starting at frame 100. -/
def tFadeOutW : HieroTransition :=
  ⟨TransitionAlignment.kFadeOut, 100, 109, 0, 0⟩

/-- Concrete dissolve spanning frames 8–12 between neighbours ending at 10
and starting at 9. -/
def tDissolveW : HieroTransition :=
  ⟨TransitionAlignment.kDissolve, 8, 12, 10, 9⟩

/-- Concrete transition with an unrecognised alignment. -/
def tUnknownW : HieroTransition :=
  ⟨TransitionAlignment.kUnknown, 3, 7, 5, 4⟩

/-- Item fixture ending at frame 109 carrying the fade-out transition. -/
def itemFadeOutW : HieroTrackItem :=
  { mkItem 90 109 with outTransition := some tFadeOutW }

/-- Claim C4: for every host track item, the Range Builder's source range
starts at the item's source-out when playback speed is negative and at its
source-in otherwise, and its duration is the item's host-frame duration, both
expressed at the resolved rate (taken from the clip when its media has video,
from the sequence otherwise, returned exactly when integral and rounded to
two decimal places otherwise). -/
theorem C4_source_range (seq : HieroSequence) (item : HieroTrackItem) (c : HieroClip) :
    (get_clip_ranges seq item c).1 =
      ⟨⟨(((if item.playbackSpeed < 0 then item.sourceOut else item.sourceIn) : Int) : ℚ),
         specSourceRate seq c⟩,
       ⟨(item.duration : ℚ), specSourceRate seq c⟩⟩ := by
  simp only [get_clip_ranges, specSourceRate, specResolvedRate, get_rate]
  cases h : c.mediaSource.hasVideo <;> simp [h]

/-- Claim C3: for every selected transition the emitted offset pair is, by
alignment, exactly the fade-in, fade-out or dissolve pair stated in the spec
(in frames). -/
theorem C3_offsets_by_alignment (item : HieroTrackItem) (c : HieroClip)
    (t : HieroTransition) :
    (t.alignment = TransitionAlignment.kFadeIn →
       Option.map (fun tr => (tr.in_offset.value, tr.out_offset.value))
           (make_transition item c t) =
         some (((specFadeInOffsets t).1 : ℚ), ((specFadeInOffsets t).2 : ℚ)))
  ∧ (t.alignment = TransitionAlignment.kFadeOut →
       Option.map (fun tr => (tr.in_offset.value, tr.out_offset.value))
           (make_transition item c t) =
         some (((specFadeOutOffsets item t).1 : ℚ), ((specFadeOutOffsets item t).2 : ℚ)))
  ∧ (t.alignment = TransitionAlignment.kDissolve →
       Option.map (fun tr => (tr.in_offset.value, tr.out_offset.value))
           (make_transition item c t) =
         some (((specDissolveOffsets t).1 : ℚ), ((specDissolveOffsets t).2 : ℚ))) := by
  refine ⟨?_, ?_, ?_⟩ <;> intro h <;>
    simp [make_transition, transition_offsets, h,
      specFadeInOffsets, specFadeOutOffsets, specDissolveOffsets]

/-- Witness for C3 at concrete transitions of all three alignments. -/
theorem C3_offsets_by_alignment_witness :
    Option.map (fun tr => (tr.in_offset.value, tr.out_offset.value))
        (make_transition itemA1 cC tFadeInW) = some ((0 : ℚ), (6 : ℚ))
  ∧ Option.map (fun tr => (tr.in_offset.value, tr.out_offset.value))
        (make_transition itemFadeOutW cC tFadeOutW) = some ((10 : ℚ), (0 : ℚ))
  ∧ Option.map (fun tr => (tr.in_offset.value, tr.out_offset.value))
        (make_transition itemA1 cC tDissolveW) = some ((2 : ℚ), (3 : ℚ)) := by
  refine ⟨?_, ?_, ?_⟩
  · have h := (C3_offsets_by_alignment itemA1 cC tFadeInW).1 rfl
    simpa [specFadeInOffsets, tFadeInW] using h
  · have h := (C3_offsets_by_alignment itemFadeOutW cC tFadeOutW).2.1 rfl
    simpa [specFadeOutOffsets, tFadeOutW, itemFadeOutW, mkItem] using h
  · have h := (C3_offsets_by_alignment itemA1 cC tDissolveW).2.2 rfl
    simpa [specDissolveOffsets, tDissolveW] using h

/-- Claim C9: playback speed 0 yields exactly one freeze-frame effect, speed
1 yields zero effects, and any other speed yields exactly one linear
time-warp effect whose time scalar equals that speed. -/
theorem C9_time_effects (preset : ExportPreset) (seq : HieroSequence)
    (item : HieroTrackItem) (c : HieroClip) :
    (item.playbackSpeed = 0 →
       (build_clip preset seq item c).effects = [TimeEffect.freezeFrame])
  ∧ (item.playbackSpeed = 1 →
       (build_clip preset seq item c).effects = [])
  ∧ (item.playbackSpeed ≠ 0 → item.playbackSpeed ≠ 1 →
       (build_clip preset seq item c).effects =
         [TimeEffect.linearTimeWarp item.playbackSpeed]) := by
  refine ⟨fun h => ?_, fun h => ?_, fun h0 h1 => ?_⟩ <;>
    simp [build_clip, *]

/-- Witness for C9 at concrete items of speeds 0, 1 and 2. -/
theorem C9_time_effects_witness :
    (build_clip presetC seqC (itemSpeed 0) cC).effects = [TimeEffect.freezeFrame]
  ∧ (build_clip presetC seqC (itemSpeed 1) cC).effects = []
  ∧ (build_clip presetC seqC (itemSpeed 2) cC).effects = [TimeEffect.linearTimeWarp 2] :=
  ⟨(C9_time_effects presetC seqC (itemSpeed 0) cC).1 rfl,
   (C9_time_effects presetC seqC (itemSpeed 1) cC).2.1 rfl,
   (C9_time_effects presetC seqC (itemSpeed 2) cC).2.2 (by norm_num [itemSpeed, mkItem])
     (by norm_num [itemSpeed, mkItem])⟩

/-- Claim C8: offline media yields a clip with a missing-media reference and
no available range; online media yields an external reference whose available
range is the media's start time and duration at the resolved rate. -/
theorem C8_media_reference (preset : ExportPreset) (seq : HieroSequence)
    (item : HieroTrackItem) (c : HieroClip) :
    (c.mediaSource.isOffline = true →
       (build_clip preset seq item c).media_reference = MediaReference.missing
       ∧ (get_clip_ranges seq item c).2 = none)
  ∧ (c.mediaSource.isOffline = false →
       (build_clip preset seq item c).media_reference =
         MediaReference.externalRef
           (some ⟨⟨(c.mediaSource.startTime : ℚ), specSourceRate seq c⟩,
                  ⟨(c.mediaSource.duration : ℚ), specSourceRate seq c⟩⟩)
           (joinPath c.mediaSource.fileDir c.mediaSource.fileBase)
           c.mediaSource.fileBase) := by
  constructor <;> intro h
  · constructor <;> simp [build_clip, get_clip_ranges, h]
  · simp only [build_clip, get_clip_ranges, h, specSourceRate, specResolvedRate, get_rate]
    cases hv : c.mediaSource.hasVideo <;> simp [hv]

/-- Witness for C8 at a concrete offline item and a concrete online item. -/
theorem C8_media_reference_witness :
    ((build_clip presetC seqC itemA1 cOffline).media_reference = MediaReference.missing
       ∧ (get_clip_ranges seqC itemA1 cOffline).2 = none)
  ∧ (build_clip presetC seqC itemA1 cC).media_reference =
      MediaReference.externalRef
        (some ⟨⟨(0 : ℚ), (24 : ℚ)⟩, ⟨(100 : ℚ), (24 : ℚ)⟩⟩)
        "/media/a.mov" "a.mov" := by
  constructor
  · exact (C8_media_reference presetC seqC itemA1 cOffline).1 rfl
  · have h := (C8_media_reference presetC seqC itemA1 cC).2 rfl
    have hrate : specSourceRate seqC cC = (24 : ℚ) := by
      norm_num [specSourceRate, specResolvedRate, cC, msOnline, seqC]
    rw [hrate] at h
    simpa [cC, msOnline, joinPath] using h

/-- Concrete OTIO transition produced for `tFadeInW` on a 24 fps clip. -/
def trFadeInW : OtioTransition :=
  ⟨TransitionAlignment.kFadeIn, ⟨0, 24⟩, ⟨6, 24⟩⟩

/-- Concrete OTIO transition produced for `tDissolveW` on a 24 fps clip. -/
def trDissolveW : OtioTransition :=
  ⟨TransitionAlignment.kDissolve, ⟨2, 24⟩, ⟨3, 24⟩⟩

/-- Concrete three-child track used by the placement witnesses. -/
def csW : List TrackChild :=
  [TrackChild.gap ⟨⟨0, 1⟩, ⟨1, 24⟩⟩,
   TrackChild.gap ⟨⟨0, 1⟩, ⟨2, 24⟩⟩,
   TrackChild.gap ⟨⟨0, 1⟩, ⟨3, 24⟩⟩]

/-- Claim C5: every Transition the translator emits has non-negative in- and
out-offsets, for every accepted host transition geometry (one whose span is
well-formed for its alignment, `transitionGeometryWF`). -/
theorem C5_offsets_nonneg (item : HieroTrackItem) (c : HieroClip) (t : HieroTransition)
    (tr : OtioTransition) (hwf : transitionGeometryWF item t)
    (h : make_transition item c t = some tr) :
    0 ≤ tr.in_offset.value ∧ 0 ≤ tr.out_offset.value := by
  unfold make_transition transition_offsets at h
  unfold transitionGeometryWF at hwf
  cases ht : t.alignment <;> rw [ht] at hwf h <;>
    simp only [Option.some.injEq, reduceCtorEq] at h
  case kFadeIn =>
    cases h
    dsimp only
    constructor
    · norm_num
    · have hle : (0 : ℤ) ≤ 1 + (t.timelineOut - t.timelineIn) := by omega
      exact_mod_cast hle
  case kFadeOut =>
    cases h
    dsimp only
    constructor
    · have hle : (0 : ℤ) ≤ 1 + (item.timelineOut - t.timelineIn) := by omega
      exact_mod_cast hle
    · norm_num
  case kDissolve =>
    cases h
    dsimp only
    constructor
    · have hle : (0 : ℤ) ≤ t.inItemTimelineOut - t.timelineIn := by omega
      exact_mod_cast hle
    · have hle : (0 : ℤ) ≤ t.timelineOut - t.outItemTimelineIn := by omega
      exact_mod_cast hle

/-- Witness for C5 at the concrete fade-in transition `tFadeInW`. -/
theorem C5_offsets_nonneg_witness :
    0 ≤ trFadeInW.in_offset.value ∧ 0 ≤ trFadeInW.out_offset.value :=
  C5_offsets_nonneg itemA1 cC tFadeInW trFadeInW
    (by norm_num [transitionGeometryWF, tFadeInW])
    (by norm_num [make_transition, transition_offsets, tFadeInW, trFadeInW, cC])

/-- Claim C6: a fade-in transition is inserted two positions before the
track's current end (index `length - 2`, which Python's `insert(-2, ·)`
clamps to the front for tracks shorter than two children); every other
emitted transition is appended at the current end. -/
theorem C6_transition_placement (item : HieroTrackItem) (c : HieroClip)
    (t : HieroTransition) (rest : List HieroTransition) (otio_track : List TrackChild)
    (tr : OtioTransition) (h : make_transition item c t = some tr) :
    (t.alignment = TransitionAlignment.kFadeIn →
       process_transitions item c (t :: rest) otio_track =
         process_transitions item c rest
           (otio_track.take (otio_track.length - 2) ++ [TrackChild.transition tr] ++
              otio_track.drop (otio_track.length - 2)))
  ∧ (t.alignment ≠ TransitionAlignment.kFadeIn →
       process_transitions item c (t :: rest) otio_track =
         process_transitions item c rest (otio_track ++ [TrackChild.transition tr])) := by
  constructor <;> intro ha <;>
    simp [process_transitions, h, ha, insert_two_before_end]

/-- Witness for C6: on a three-child track, a fade-in lands before the last
two children and a dissolve is appended at the end. -/
theorem C6_transition_placement_witness :
    process_transitions itemA1 cC [tFadeInW] csW =
      [TrackChild.gap ⟨⟨0, 1⟩, ⟨1, 24⟩⟩,
       TrackChild.transition trFadeInW,
       TrackChild.gap ⟨⟨0, 1⟩, ⟨2, 24⟩⟩,
       TrackChild.gap ⟨⟨0, 1⟩, ⟨3, 24⟩⟩]
  ∧ process_transitions itemA1 cC [tDissolveW] csW =
      csW ++ [TrackChild.transition trDissolveW] := by
  constructor
  · have h :=
      (C6_transition_placement itemA1 cC tFadeInW [] csW trFadeInW
        (by norm_num [make_transition, transition_offsets, tFadeInW, trFadeInW, cC])).1 rfl
    simpa [csW, process_transitions] using h
  · have h :=
      (C6_transition_placement itemA1 cC tDissolveW [] csW trDissolveW
        (by norm_num [make_transition, transition_offsets, tDissolveW, trDissolveW, cC])).2
        (by decide)
    simpa [process_transitions] using h

/-- Claim C7: a candidate transition with an unrecognised alignment emits no
Transition entry, abandons the remaining candidates, and leaves the track —
in particular its Clip/Gap sequence — unchanged. -/
theorem C7_unknown_alignment_stops (item : HieroTrackItem) (c : HieroClip)
    (t : HieroTransition) (rest : List HieroTransition) (otio_track : List TrackChild)
    (h : t.alignment = TransitionAlignment.kUnknown) :
    process_transitions item c (t :: rest) otio_track = otio_track
  ∧ clipGapChildren (process_transitions item c (t :: rest) otio_track) =
      clipGapChildren otio_track := by
  have hm : make_transition item c t = none := by
    simp [make_transition, transition_offsets, h]
  refine ⟨?_, ?_⟩ <;> simp [process_transitions, hm]

/-- Witness for C7: an unknown-alignment candidate followed by a fade-out
candidate leaves the concrete track untouched. -/
theorem C7_unknown_alignment_stops_witness :
    process_transitions itemA1 cC [tUnknownW, tFadeOutW] csW = csW :=
  (C7_unknown_alignment_stops itemA1 cC tUnknownW [tFadeOutW] csW rfl).1

/-- The concrete 24 fps sequence rate resolves to the integer 24. -/
theorem get_rate_24_1 : get_rate (24 : ℤ) (1 : ℤ) = (24 : ℚ) := by
  norm_num [get_rate]

/-- Claim C1 (amended): processing item B with the previous-out cursor at A's
timeline-out appends no Gap when B's timeline-in equals that cursor plus one;
when B's timeline-in exceeds it by 1 + k (k ≥ 1), exactly one Gap is appended
between the Clips, of duration k frames at the sequence's resolved rate —
except that when the cursor (A's timeline-out) is 0 the one-frame adjustment
is skipped and the Gap lasts k + 1 frames.  The skip condition is the cursor
being 0, not A being the first item starting at timeline position 0. -/
theorem C1_gap_between_items (preset : ExportPreset) (seq : HieroSequence)
    (itemB : HieroTrackItem) (c : HieroClip) (otio_track : List TrackChild) (prev_out : Int)
    (hin : itemB.inTransition = none) (hout : itemB.outTransition = none) :
    (itemB.timelineIn = prev_out + 1 →
       add_clip preset seq itemB c otio_track prev_out =
         otio_track ++ [TrackChild.clip (build_clip preset seq itemB c)])
  ∧ (∀ k : ℤ, 1 ≤ k → itemB.timelineIn = prev_out + 1 + k →
       add_clip preset seq itemB c otio_track prev_out =
         otio_track ++
           [TrackChild.gap ⟨⟨0, 1⟩,
              ⟨(((if prev_out = 0 then k + 1 else k) : ℤ) : ℚ),
               get_rate seq.rateNum seq.rateDen⟩⟩,
            TrackChild.clip (build_clip preset seq itemB c)]) := by
  constructor
  · intro h
    simp [add_clip, hin, hout, h]
  · intro k hk h
    have hne : prev_out + 1 ≠ itemB.timelineIn := by omega
    rcases eq_or_ne prev_out 0 with h0 | h0
    · have hval : itemB.timelineIn = k + 1 := by omega
      have hk0 : ¬ k = 0 := by omega
      simp [add_clip, add_gap, hin, hout, hne, h0, hval, hk0]
    · have hval : itemB.timelineIn - prev_out - 1 = k := by omega
      simp [add_clip, add_gap, hin, hout, hne, h0, hval]

/-- Witness for the amended C1: cursor 5, item at timeline-in 10 (k = 4)
yields exactly one Gap of 4 frames at 24 fps before the Clip. -/
theorem C1_gap_between_items_witness :
    add_clip presetC seqC itemB1 cC [] 5 =
      [TrackChild.gap ⟨⟨0, 1⟩, ⟨4, 24⟩⟩,
       TrackChild.clip (build_clip presetC seqC itemB1 cC)] := by
  have h := (C1_gap_between_items presetC seqC itemB1 cC [] 5 rfl rfl).2 4 (by norm_num)
    (by norm_num [itemB1, mkItem])
  simpa [seqC, get_rate_24_1] using h

/-- Counterexample to C1 as stated: item A occupies frames 0–5 (the first
item, starting exactly at timeline position 0) and item B starts at frame 10,
so B's timeline-in exceeds A's timeline-out + 1 by k = 4.  The claim's
exception says that in the first-item-at-position-0 case no one-frame
adjustment is subtracted, i.e. the Gap should last
B.timeline-in − A.timeline-out = 5 frames; the code subtracts the frame
(the cursor is A's timeline-out = 5 ≠ 0) and emits a 4-frame Gap. -/
theorem C1_counterexample :
    add_track_items presetC seqC [itemA1, itemB1] 0 none [] =
      Except.ok [TrackChild.clip (build_clip presetC seqC itemA1 cC),
                 TrackChild.gap ⟨⟨0, 1⟩, ⟨4, 24⟩⟩,
                 TrackChild.clip (build_clip presetC seqC itemB1 cC)]
  ∧ itemA1.timelineIn = 0 ∧ itemA1.timelineOut = 5 ∧ itemB1.timelineIn = 10
  ∧ (4 : ℚ) ≠ (((10 : ℤ) - 5 : ℤ) : ℚ) := by
  refine ⟨?_, rfl, rfl, rfl, by norm_num⟩
  simp [add_track_items, add_clip, add_gap, itemA1, itemB1, mkItem, presetC, seqC,
    get_rate_24_1]

/-- Claim C2, code-bug exhibit: on a track whose first item is non-qualifying
(source not a genuine clip) and whose second item qualifies, the item loop
reads the previous-out cursor before any assignment — Python's
`UnboundLocalError` — instead of initialising it on the first qualifying item
as the spec states.  The conversion is not total for tracks whose qualifying
items appear at an index other than 0. -/
theorem C2_unbound_prev_out :
    add_track_items presetC seqC [nonClipItem, itemB1] 0 none [] =
      Except.error ConvError.unboundPrevOut := rfl

/-- Claim C10: when item B's timeline-in is at most the cursor (the previous
item's timeline-out), the cursor plus one cannot equal B's timeline-in, so a
Gap is still appended, with computed duration timeline-in − cursor, minus one
more frame when the cursor is non-zero — a value that is zero or negative;
nothing guards against non-positive gap lengths. -/
theorem C10_nonpositive_gap (preset : ExportPreset) (seq : HieroSequence)
    (itemB : HieroTrackItem) (c : HieroClip) (otio_track : List TrackChild) (prev_out : Int)
    (h : itemB.timelineIn ≤ prev_out)
    (hin : itemB.inTransition = none) (hout : itemB.outTransition = none) :
    add_clip preset seq itemB c otio_track prev_out =
      otio_track ++
        [TrackChild.gap ⟨⟨0, 1⟩,
           ⟨((itemB.timelineIn - prev_out - (if prev_out ≠ 0 then 1 else 0) : ℤ) : ℚ),
            get_rate seq.rateNum seq.rateDen⟩⟩,
         TrackChild.clip (build_clip preset seq itemB c)]
  ∧ (itemB.timelineIn - prev_out - (if prev_out ≠ 0 then 1 else 0) : ℤ) ≤ 0 := by
  have hne : prev_out + 1 ≠ itemB.timelineIn := by omega
  constructor
  · rcases eq_or_ne prev_out 0 with h0 | h0
    · have hc : ¬ (1 : ℤ) = itemB.timelineIn := by omega
      simp [add_clip, add_gap, hin, hout, hne, h0, hc]
    · simp [add_clip, add_gap, hin, hout, hne, h0]
  · rcases eq_or_ne prev_out 0 with h0 | h0 <;> simp [h0] <;> omega

/-- Item fixture overlapping its predecessor: frames 3–8. -/
def itemOverlapW : HieroTrackItem := mkItem 3 8

/-- Witness for C10: cursor 5, item at timeline-in 3 yields a Gap of −3
frames. -/
theorem C10_nonpositive_gap_witness :
    add_clip presetC seqC itemOverlapW cC [] 5 =
      [TrackChild.gap ⟨⟨0, 1⟩, ⟨-3, 24⟩⟩,
       TrackChild.clip (build_clip presetC seqC itemOverlapW cC)]
  ∧ (-3 : ℤ) ≤ 0 := by
  have h := C10_nonpositive_gap presetC seqC itemOverlapW cC [] 5
    (by norm_num [itemOverlapW, mkItem]) rfl rfl
  constructor
  · have h1 := h.1
    simpa [itemOverlapW, mkItem, seqC, get_rate_24_1] using h1
  · norm_num

end OTIOExport
